import Mathlib

/-!
Shallow embedding of `party.py` from the trytond-shipping-ups module.

The module extends a party address record with carrier-specific mappers
(`_get_ups_address_xml`, `to_ups_from_address`, `to_ups_to_address`,
`to_ups_shipper`, `to_worldship_address`) and a suggestion reconciler
(`_ups_address_validate`).

Modelling conventions:
  * Python strings that may be absent (falsy `None` or `''`) are modelled as
    `String` with `""` standing for the absent/falsy value, except where the
    source distinguishes `None` from `''` (the worldship payload values,
    which are `Option String`: `none` models Python `None`).
  * Record references that may be `None` (`country`, `subdivision`) are
    `Option _`.
  * `raise_user_error` aborts the call, so fallible mappers return
    `Except String _` carrying the error message.
  * Dictionaries are association lists `List (String × _)` in insertion
    order; a key is "omitted" when no pair with that key occurs.
-/

namespace UpsShipping

/-- A country record; only its 2-letter `code` is read by the module. -/
structure Country where
  code : String
deriving DecidableEq, Repr

/-- A subdivision record with a database identity and a composite
`COUNTRY-REGION` code; Tryton record equality is by identity, modelled by
including `id` in the structure and deriving decidable equality. -/
structure Subdivision where
  id : Nat
  code : String
deriving DecidableEq, Repr

/-- A party identifier; only its `code` is read. -/
structure Identifier where
  code : String
deriving DecidableEq, Repr

/-- The party behind an address: contact channels, identifiers and the
optional `tax_exemption_number` attribute (`none` models a party type that
does not expose the attribute). -/
structure Party where
  name : String
  phone : String
  fax : String
  email : String
  identifiers : List Identifier
  tax_exemption_number : Option String
deriving DecidableEq, Repr

/-- The party address record as read by `party.py`. -/
structure Address where
  name : String
  street : String
  streetbis : String
  city : String
  zip : String
  country : Option Country
  subdivision : Option Subdivision
  party : Party
deriving DecidableEq, Repr

/-- Models `digits_only_re.sub('', s)` with `digits_only_re =
re.compile('\D+')`: every non-digit character is removed. -/
def digits_only (s : String) : String :=
  String.mk (s.toList.filter Char.isDigit)

/-- Models Python `s.upper()` (ASCII case mapping, as the module's city
comparisons use plain `str.upper`). -/
def str_upper (s : String) : String :=
  String.mk (s.toList.map Char.toUpper)

/-- Models the Python slice `s[:n]`: the first `n` characters. -/
def str_take (s : String) (n : Nat) : String :=
  String.mk (s.toList.take n)

/-- Models the Python slice `s[n:]`: all characters from index `n` on. -/
def str_drop (s : String) (n : Nat) : String :=
  String.mk (s.toList.drop n)

/-- Models the `ups_field_missing` error message template
`'%s is missing in %s.'`. -/
def ups_field_missing (field place : String) : String :=
  field ++ " is missing in " ++ place ++ "."

/-- Models Python `x or y` on strings (empty string is falsy). -/
def strOr (x y : String) : String :=
  if x = "" then y else x

/-- A REST-style payload: carrier field name to string value, in insertion
order. -/
abbrev Payload := List (String × String)

/-- Models `Address._get_ups_address_xml`: required-field validation followed
by the REST-style address field mapping (`ShipmentConfirm.address_type` is
modelled as the field dictionary itself). -/
def _get_ups_address_xml (a : Address) : Except String Payload :=
  match a.country with
  | none => .error "Street, City and Country are required."
  | some c =>
    if a.street = "" ∨ a.city = "" then
      .error "Street, City and Country are required."
    else if (c.code = "US" ∨ c.code = "CA") ∧ a.subdivision = none then
      .error ("State is required for " ++ c.code)
    else if (c.code = "US" ∨ c.code = "CA" ∨ c.code = "PR") ∧ a.zip = "" then
      .error ("ZIP is required for " ++ c.code)
    else
      .ok ([("AddressLine1", str_take a.street 35),
            ("City", str_take a.city 30),
            ("CountryCode", c.code)]
        ++ (if a.streetbis ≠ "" then [("AddressLine2", str_take a.streetbis 35)] else [])
        ++ (match a.subdivision with
            | some s => [("StateProvinceCode", str_drop s.code 3)]
            | none => [])
        ++ (if a.zip ≠ "" then [("PostalCode", a.zip)] else []))

/-- Models the Python idiom `ids and ids[0].code or ''` used for the
tax identification number of the company party. -/
def first_identifier_code (ids : List Identifier) : String :=
  match ids with
  | [] => ""
  | i :: _ => i.code

/-- Models `Address.to_ups_from_address`. The ambient transaction context is
the optional company id `ctx`; `companyParty` models the record-store lookup
`Company(company_id).party`. The produced `ship_from_type` element is
modelled as address fields followed by the `vals` dictionary. -/
def to_ups_from_address (a : Address) (ctx : Option Nat)
    (companyParty : Nat → Party) : Except String Payload :=
  if a.party.phone = "" then
    .error (ups_field_missing "Phone no." "\"from address\"")
  else
    match ctx with
    | none => .error (ups_field_missing "Company" "context")
    | some cid =>
      let cp := companyParty cid
      let vals := [("CompanyName", cp.name),
                   ("AttentionName", strOr a.name a.party.name),
                   ("TaxIdentificationNumber", first_identifier_code cp.identifiers),
                   ("PhoneNumber", digits_only a.party.phone)]
        ++ (if a.party.fax ≠ "" then [("FaxNumber", a.party.fax)] else [])
        ++ (if a.party.email ≠ "" then [("EMailAddress", a.party.email)] else [])
      match _get_ups_address_xml a with
      | .error e => .error e
      | .ok addr => .ok (addr ++ vals)

/-- Models the tax identification number resolution of
`Address.to_ups_to_address`: first identifier's code, else the
`tax_exemption_number` attribute when the party type exposes it and it is
non-empty, else the empty string. -/
def to_address_tax_id (p : Party) : String :=
  match p.identifiers with
  | i :: _ => i.code
  | [] =>
    match p.tax_exemption_number with
    | some t => if t = "" then "" else t
    | none => ""

/-- Models `Address.to_ups_to_address`. -/
def to_ups_to_address (a : Address) : Except String Payload :=
  let party := a.party
  let vals := [("CompanyName", strOr a.name party.name),
               ("TaxIdentificationNumber", to_address_tax_id party),
               ("AttentionName", strOr a.name party.name)]
    ++ (if party.phone ≠ "" then [("PhoneNumber", digits_only party.phone)] else [])
    ++ (if party.fax ≠ "" then [("FaxNumber", party.fax)] else [])
    ++ (if party.email ≠ "" then [("EMailAddress", party.email)] else [])
  match _get_ups_address_xml a with
  | .error e => .error e
  | .ok addr => .ok (addr ++ vals)

/-- Models `Address.to_ups_shipper`; `shipperNo` models
`carrier.ups_shipper_no`. -/
def to_ups_shipper (a : Address) (shipperNo : String) (ctx : Option Nat)
    (companyParty : Nat → Party) : Except String Payload :=
  if a.party.phone = "" then
    .error (ups_field_missing "Phone no." "\"Shipper Address\"")
  else
    match ctx with
    | none => .error (ups_field_missing "Company" "context")
    | some cid =>
      let cp := companyParty cid
      let vals := [("CompanyName", cp.name),
                   ("TaxIdentificationNumber", first_identifier_code cp.identifiers),
                   ("Name", strOr a.name a.party.name),
                   ("AttentionName", strOr a.name a.party.name),
                   ("PhoneNumber", digits_only a.party.phone),
                   ("ShipperNumber", shipperNo)]
        ++ (if a.party.fax ≠ "" then [("FaxNumber", a.party.fax)] else [])
        ++ (if a.party.email ≠ "" then [("EMailAddress", a.party.email)] else [])
      match _get_ups_address_xml a with
      | .error e => .error e
      | .ok addr => .ok (addr ++ vals)

/-- A worldship payload: values are `Option String` because the source's
`x and y` idiom can place Python `None` (modelled `none`) as a value,
distinct from the empty string `some ""`. -/
abbrev WorldshipPayload := List (String × Option String)

/-- Models `Address.to_worldship_address`: the desktop-XML field dictionary.
All nine keys are always present; `CountryTerritory` and
`StateProvinceCounty` use the `x and y` idiom (value `none` when the record
is absent), while `Address2`, `PostalCode` and `CityOrTown` use `x or ''`
(value `some ""` when the field is absent). -/
def to_worldship_address (a : Address) (ctx : Option Nat)
    (companyParty : Nat → Party) : Except String WorldshipPayload :=
  match ctx with
  | none => .error (ups_field_missing "Company" "context")
  | some cid =>
    .ok [("CompanyOrName", some (companyParty cid).name),
         ("Attention", some (strOr a.name a.party.name)),
         ("Address1", some (strOr a.street "")),
         ("Address2", some (strOr a.streetbis "")),
         ("CountryTerritory", a.country.map (fun c => c.code)),
         ("PostalCode", some (strOr a.zip "")),
         ("CityOrTown", some (strOr a.city "")),
         ("StateProvinceCounty", a.subdivision.map (fun s => str_drop s.code 3)),
         ("Telephone", some (digits_only a.party.phone))]

/-- A carrier suggestion from the validation response: the `city` and
`state` fields read by `_ups_address_validate`. -/
structure Suggestion where
  city : String
  state : String
deriving DecidableEq, Repr

/-- The carrier validation response: `valid` flag and suggestion list. -/
structure UPSResponse where
  valid : Bool
  suggestions : List Suggestion
deriving DecidableEq, Repr

/-- A candidate address constructed by the reconciler:
`Address(city=..., subdivision=subdivision, **base_address)` where
`base_address` carries the original's name, street, streetbis, country and
zip. -/
structure Candidate where
  name : String
  street : String
  streetbis : String
  country : Option Country
  zip : String
  city : String
  subdivision : Subdivision
deriving DecidableEq, Repr

/-- The reconciliation outcome: `exact` models the Python `return True`,
`candidates` models `return matches`. -/
inductive Verdict where
  | exact : Verdict
  | candidates (found : List Candidate) : Verdict
deriving DecidableEq, Repr

/-- Models `Subdivision.search([('code', '=', code)])` against the record
store `db`: all records whose code equals `code`. -/
def subdivision_search (db : List Subdivision) (code : String) : List Subdivision :=
  db.filter (fun s => s.code = code)

/-- Models the `subdivision, = Subdivision.search(...)` unpacking with its
`except ValueError: continue` guard: `some sub` exactly when the search for
`countryCode ++ "-" ++ state` returns one record. -/
def resolve_suggestion (db : List Subdivision) (countryCode : String)
    (s : Suggestion) : Option Subdivision :=
  match subdivision_search db (countryCode ++ "-" ++ s.state) with
  | [sub] => some sub
  | _ => none

/-- Models the candidate construction `Address(city=address['city'],
subdivision=subdivision, **base_address)`. -/
def make_candidate (orig : Address) (city : String) (sub : Subdivision) : Candidate :=
  { name := orig.name
    street := orig.street
    streetbis := orig.streetbis
    country := orig.country
    zip := orig.zip
    city := city
    subdivision := sub }

/-- Models the suggestion loop of `_ups_address_validate` (lines 269-294):
`acc` is the `matches` accumulator; an unresolvable suggestion is skipped;
a resolvable suggestion whose city matches case-insensitively and whose
resolved subdivision equals the original's returns `True` immediately;
otherwise a candidate is appended. -/
def reconcile_loop (db : List Subdivision) (orig : Address) (countryCode : String) :
    List Suggestion → List Candidate → Verdict
  | [], acc => .candidates acc
  | s :: rest, acc =>
    match resolve_suggestion db countryCode s with
    | none => reconcile_loop db orig countryCode rest acc
    | some sub =>
      if str_upper orig.city = str_upper s.city ∧ orig.subdivision = some sub then
        .exact
      else
        reconcile_loop db orig countryCode rest (acc ++ [make_candidate orig s.city sub])

/-- Models the reconciliation part of `_ups_address_validate` (lines
256-294), given the carrier response. `countryCode` is `self.country.code`,
which the source dereferences unconditionally; it is passed explicitly. -/
def reconcile (db : List Subdivision) (orig : Address) (countryCode : String)
    (resp : UPSResponse) : Verdict :=
  if resp.valid ∧ resp.suggestions = [] then
    .exact
  else
    reconcile_loop db orig countryCode resp.suggestions []

/-- The short-circuit condition of the loop for one suggestion: the
suggestion resolves to exactly the subdivision `sub`, cities agree
case-insensitively and `sub` is the original's subdivision. -/
def confirms_original (db : List Subdivision) (orig : Address)
    (countryCode : String) (s : Suggestion) : Prop :=
  ∃ sub, subdivision_search db (countryCode ++ "-" ++ s.state) = [sub] ∧
    str_upper orig.city = str_upper s.city ∧ orig.subdivision = some sub

instance (db : List Subdivision) (orig : Address) (countryCode : String)
    (s : Suggestion) : Decidable (confirms_original db orig countryCode s) := by
  unfold confirms_original
  rcases h : subdivision_search db (countryCode ++ "-" ++ s.state) with _ | ⟨sub, _ | ⟨b, t⟩⟩
  · exact .isFalse (by simp [h])
  · by_cases hc : str_upper orig.city = str_upper s.city ∧ orig.subdivision = some sub
    · exact .isTrue ⟨sub, rfl, hc⟩
    · refine .isFalse ?_
      rintro ⟨sub2, hs, hc2⟩
      injection hs with h1 h2
      subst h1
      exact hc hc2
  · exact .isFalse (by simp [h])

/-! Concrete example records, used to exercise the definitions at explicit
inputs. -/

/-- The Texas subdivision record. -/
def exSubTX : Subdivision := ⟨1, "US-TX"⟩

/-- A party with a phone number, no fax, no identifiers. -/
def exParty : Party :=
  { name := "Acme Corp", phone := "555-123-4567", fax := "", email := "",
    identifiers := [], tax_exemption_number := none }

/-- A party with no identifiers but a non-empty tax exemption number. -/
def exPartyTaxEx : Party :=
  { exParty with tax_exemption_number := some "E-123" }

/-- A complete US address. -/
def exAddress : Address :=
  { name := "John", street := "123 Main St", streetbis := "", city := "Austin",
    zip := "78701", country := some ⟨"US"⟩, subdivision := some exSubTX,
    party := exParty }

/-- A 40-character street. -/
def exStreet40 : String := "1234567890123456789012345678901234567890"

/-- A 50-character city. -/
def exCity50 : String :=
  "12345678901234567890123456789012345678901234567890"

/-- The US address with over-long street and city. -/
def exLongAddress : Address := { exAddress with street := exStreet40, city := exCity50 }

/-- A company record-store lookup returning `exParty`. -/
def exCompanyLookup : Nat → Party := fun _ => exParty

/-- A company record-store lookup returning the tax-exempt party. -/
def exCompanyLookupTaxEx : Nat → Party := fun _ => exPartyTaxEx

/-- The US address with an empty street. -/
def exNoStreet : Address := { exAddress with street := "" }

/-- The US address with no subdivision. -/
def exNoSubUS : Address := { exAddress with subdivision := none }

/-- The US address with no zip. -/
def exNoZipUS : Address := { exAddress with zip := "" }

/-- A French address with no zip and no subdivision. -/
def exFR : Address :=
  { exAddress with country := some ⟨"FR"⟩, subdivision := none, zip := "" }

/-- The US address whose party has no phone. -/
def exNoPhone : Address := { exAddress with party := { exParty with phone := "" } }

/-- A suggestion whose state code resolves to no subdivision. -/
def exSuggestionZZ : Suggestion := ⟨"Houston", "ZZ"⟩

/-- An invalid-address response with one unresolvable suggestion. -/
def exRespZZ : UPSResponse := ⟨false, [exSuggestionZZ]⟩

/-- An invalid-address response with one resolvable, non-matching
suggestion. -/
def exRespHouston : UPSResponse := ⟨false, [⟨"Houston", "TX"⟩]⟩

/-- The candidate the reconciler builds from the Houston suggestion. -/
def exCandidateHouston : Candidate :=
  { name := "John", street := "123 Main St", streetbis := "",
    country := some ⟨"US"⟩, zip := "78701", city := "Houston",
    subdivision := exSubTX }

/-- The from-address payload of `exAddress` under `exCompanyLookup`. -/
def exFromPayload : Payload :=
  [("AddressLine1", "123 Main St"), ("City", "Austin"), ("CountryCode", "US"),
   ("StateProvinceCode", "TX"), ("PostalCode", "78701"),
   ("CompanyName", "Acme Corp"), ("AttentionName", "John"),
   ("TaxIdentificationNumber", ""), ("PhoneNumber", "5551234567")]

/-- The worldship payload of `exNoSubUS` under `exCompanyLookup`. -/
def exWsNoSubPayload : WorldshipPayload :=
  [("CompanyOrName", some "Acme Corp"), ("Attention", some "John"),
   ("Address1", some "123 Main St"), ("Address2", some ""),
   ("CountryTerritory", some "US"), ("PostalCode", some "78701"),
   ("CityOrTown", some "Austin"), ("StateProvinceCounty", none),
   ("Telephone", some "5551234567")]

/-- The to-address payload of `exAddress`. -/
def exToPayload : Payload :=
  [("AddressLine1", "123 Main St"), ("City", "Austin"), ("CountryCode", "US"),
   ("StateProvinceCode", "TX"), ("PostalCode", "78701"),
   ("CompanyName", "John"), ("TaxIdentificationNumber", ""),
   ("AttentionName", "John"), ("PhoneNumber", "5551234567")]

/-- The REST address payload of `exAddress`. -/
def exAddrPayload : Payload :=
  [("AddressLine1", "123 Main St"), ("City", "Austin"), ("CountryCode", "US"),
   ("StateProvinceCode", "TX"), ("PostalCode", "78701")]

/-- The REST address payload of `exFR`. -/
def exFRPayload : Payload :=
  [("AddressLine1", "123 Main St"), ("City", "Austin"), ("CountryCode", "FR")]

/-- The worldship payload of `exAddress` under `exCompanyLookup`. -/
def exWsPayload : WorldshipPayload :=
  [("CompanyOrName", some "Acme Corp"), ("Attention", some "John"),
   ("Address1", some "123 Main St"), ("Address2", some ""),
   ("CountryTerritory", some "US"), ("PostalCode", some "78701"),
   ("CityOrTown", some "Austin"), ("StateProvinceCounty", some "TX"),
   ("Telephone", some "5551234567")]

/-- The to-address payload of `exNoPhone` (no `PhoneNumber` key). -/
def exToNoPhonePayload : Payload :=
  [("AddressLine1", "123 Main St"), ("City", "Austin"), ("CountryCode", "US"),
   ("StateProvinceCode", "TX"), ("PostalCode", "78701"),
   ("CompanyName", "John"), ("TaxIdentificationNumber", ""),
   ("AttentionName", "John")]

/-! Helper lemmas about association-list lookup. -/

theorem lookup_append_left {β : Type} (k : String) (l1 l2 : List (String × β))
    (v : β) (h : l1.lookup k = some v) : (l1 ++ l2).lookup k = some v := by
  induction l1 with
  | nil => simp [List.lookup] at h
  | cons kv t ih =>
    obtain ⟨k1, v1⟩ := kv
    cases hk : (k == k1)
    · simp only [List.lookup, hk] at h
      simpa only [List.cons_append, List.lookup, hk] using ih h
    · simp only [List.lookup, hk] at h
      simpa only [List.cons_append, List.lookup, hk] using h

theorem lookup_append_right {β : Type} (k : String) (l1 l2 : List (String × β))
    (h : l1.lookup k = none) : (l1 ++ l2).lookup k = l2.lookup k := by
  induction l1 with
  | nil => rfl
  | cons kv t ih =>
    obtain ⟨k1, v1⟩ := kv
    cases hk : (k == k1)
    · simp only [List.lookup, hk] at h
      simpa only [List.cons_append, List.lookup, hk] using ih h
    · simp only [List.lookup, hk] at h
      cases h

/-- `strOr s ""` is just `s`. -/
theorem strOr_empty (s : String) : strOr s "" = s := by
  unfold strOr
  split
  · simp [*]
  · rfl

/-- The length of the Python slice `s[:n]` is `min n s.length`. -/
theorem str_take_length (s : String) (n : Nat) :
    (str_take s n).length = min n s.length := by
  show (s.data.take n).length = min n s.data.length
  exact List.length_take n s.data

/-- Payload shape of a successful `_get_ups_address_xml`. -/
theorem get_ups_address_xml_ok (a : Address) (p : Payload)
    (h : _get_ups_address_xml a = .ok p) :
    ∃ c, a.country = some c ∧ a.street ≠ "" ∧ a.city ≠ "" ∧
      p = [("AddressLine1", str_take a.street 35),
            ("City", str_take a.city 30),
            ("CountryCode", c.code)]
        ++ (if a.streetbis ≠ "" then [("AddressLine2", str_take a.streetbis 35)] else [])
        ++ (match a.subdivision with
            | some s => [("StateProvinceCode", str_drop s.code 3)]
            | none => [])
        ++ (if a.zip ≠ "" then [("PostalCode", a.zip)] else []) := by
  unfold _get_ups_address_xml at h
  rcases hc : a.country with _ | c <;> rw [hc] at h <;> simp only [] at h
  · cases h
  · by_cases h1 : a.street = "" ∨ a.city = ""
    · rw [if_pos h1] at h; cases h
    · rw [if_neg h1] at h
      push_neg at h1
      by_cases h2 : (c.code = "US" ∨ c.code = "CA") ∧ a.subdivision = none
      · rw [if_pos h2] at h; cases h
      · rw [if_neg h2] at h
        by_cases h3 : (c.code = "US" ∨ c.code = "CA" ∨ c.code = "PR") ∧ a.zip = ""
        · rw [if_pos h3] at h; cases h
        · rw [if_neg h3] at h
          exact ⟨c, rfl, h1.1, h1.2, (Except.ok.inj h).symm⟩

/-- Every key of a successful `_get_ups_address_xml` payload is one of its
six field names. -/
theorem get_ups_address_xml_keys (a : Address) (p : Payload)
    (h : _get_ups_address_xml a = .ok p) :
    ∀ kv ∈ p, kv.1 = "AddressLine1" ∨ kv.1 = "City" ∨ kv.1 = "CountryCode" ∨
      kv.1 = "AddressLine2" ∨ kv.1 = "StateProvinceCode" ∨ kv.1 = "PostalCode" := by
  obtain ⟨c, _, _, _, hp⟩ := get_ups_address_xml_ok a p h
  subst hp
  intro kv hkv
  simp only [List.mem_append] at hkv
  rcases hkv with ((hfix | hbis) | hsub) | hzip
  · simp only [List.mem_cons, List.not_mem_nil, or_false] at hfix
    rcases hfix with rfl | rfl | rfl <;> simp
  · revert hbis; split <;> intro hbis
    · simp only [List.mem_cons, List.not_mem_nil, or_false] at hbis
      subst hbis; simp
    · simp at hbis
  · revert hsub; rcases a.subdivision with _ | s <;> intro hsub
    · simp at hsub
    · simp only [List.mem_cons, List.not_mem_nil, or_false] at hsub
      subst hsub; simp
  · revert hzip; split <;> intro hzip
    · simp only [List.mem_cons, List.not_mem_nil, or_false] at hzip
      subst hzip; simp
    · simp at hzip

/-- Lookup misses when no key of the list equals the searched key. -/
theorem lookup_eq_none_of_keys {β : Type} (k : String) (l : List (String × β))
    (h : ∀ kv ∈ l, kv.1 ≠ k) : l.lookup k = none := by
  induction l with
  | nil => rfl
  | cons kv t ih =>
    obtain ⟨k1, v1⟩ := kv
    have hne : k ≠ k1 := fun he => h (k1, v1) (by simp) (by simp [he])
    simp only [List.lookup, beq_eq_false_iff_ne.mpr hne]
    exact ih (fun kv hkv => h kv (List.mem_cons_of_mem _ hkv))

/-- A key outside the six address-field names is absent from a successful
`_get_ups_address_xml` payload. -/
theorem get_ups_address_xml_lookup_none (a : Address) (p : Payload)
    (h : _get_ups_address_xml a = .ok p) (k : String)
    (hk : k ≠ "AddressLine1" ∧ k ≠ "City" ∧ k ≠ "CountryCode" ∧
      k ≠ "AddressLine2" ∧ k ≠ "StateProvinceCode" ∧ k ≠ "PostalCode") :
    p.lookup k = none := by
  apply lookup_eq_none_of_keys
  intro kv hkv
  have h1 := get_ups_address_xml_keys a p h kv hkv
  rcases h1 with h1 | h1 | h1 | h1 | h1 | h1 <;> rw [h1] <;>
    [exact hk.1.symm; exact hk.2.1.symm; exact hk.2.2.1.symm;
     exact hk.2.2.2.1.symm; exact hk.2.2.2.2.1.symm; exact hk.2.2.2.2.2.symm]

/-! Helper lemmas about the suggestion reconciler. -/

/-- `resolve_suggestion` succeeds exactly when the subdivision search
returns a single record. -/
theorem resolve_suggestion_eq_some (db : List Subdivision) (cc : String)
    (s : Suggestion) (sub : Subdivision) :
    resolve_suggestion db cc s = some sub ↔
      subdivision_search db (cc ++ "-" ++ s.state) = [sub] := by
  unfold resolve_suggestion
  rcases h : subdivision_search db (cc ++ "-" ++ s.state) with _ | ⟨a, _ | ⟨b, t⟩⟩ <;>
    simp

/-- The suggestion loop returns `exact` iff some suggestion of the list
confirms the original address. -/
theorem reconcile_loop_exact_iff (db : List Subdivision) (orig : Address)
    (cc : String) (l : List Suggestion) (acc : List Candidate) :
    reconcile_loop db orig cc l acc = .exact ↔
      ∃ s ∈ l, confirms_original db orig cc s := by
  induction l generalizing acc with
  | nil => simp [reconcile_loop]
  | cons s rest ih =>
    simp only [reconcile_loop]
    rcases hr : resolve_suggestion db cc s with _ | sub
    · dsimp only
      rw [ih]
      constructor
      · rintro ⟨s2, h1, h2⟩
        exact ⟨s2, List.mem_cons_of_mem _ h1, h2⟩
      · rintro ⟨s2, h1, h2⟩
        rcases List.mem_cons.mp h1 with rfl | hm
        · obtain ⟨sub, hsub, _⟩ := h2
          rw [(resolve_suggestion_eq_some db cc s2 sub).mpr hsub] at hr
          cases hr
        · exact ⟨s2, hm, h2⟩
    · dsimp only
      by_cases hc : str_upper orig.city = str_upper s.city ∧ orig.subdivision = some sub
      · rw [if_pos hc]
        simp only [true_iff]
        exact ⟨s, List.mem_cons_self s rest,
          sub, (resolve_suggestion_eq_some db cc s sub).mp hr, hc⟩
      · rw [if_neg hc, ih]
        constructor
        · rintro ⟨s2, h1, h2⟩
          exact ⟨s2, List.mem_cons_of_mem _ h1, h2⟩
        · rintro ⟨s2, h1, h2⟩
          rcases List.mem_cons.mp h1 with rfl | hm
          · obtain ⟨sub2, hsub2, hcc⟩ := h2
            rw [(resolve_suggestion_eq_some db cc s2 sub2).mpr hsub2] at hr
            cases hr
            exact absurd hcc hc
          · exact ⟨s2, hm, h2⟩

/-- When no suggestion of the list confirms the original, the loop returns
the accumulator followed by one candidate per resolvable suggestion, in
order. -/
theorem reconcile_loop_no_confirm (db : List Subdivision) (orig : Address)
    (cc : String) (l : List Suggestion) (acc : List Candidate)
    (h : ∀ s ∈ l, ¬ confirms_original db orig cc s) :
    reconcile_loop db orig cc l acc =
      .candidates (acc ++ l.filterMap
        (fun s => (resolve_suggestion db cc s).map (make_candidate orig s.city))) := by
  induction l generalizing acc with
  | nil => simp [reconcile_loop]
  | cons s rest ih =>
    simp only [reconcile_loop]
    rcases hr : resolve_suggestion db cc s with _ | sub
    · dsimp only
      rw [ih acc (fun s2 h2 => h s2 (List.mem_cons_of_mem _ h2))]
      simp [List.filterMap_cons, hr]
    · have hc : ¬ (str_upper orig.city = str_upper s.city ∧ orig.subdivision = some sub) := by
        intro hcc
        exact h s (List.mem_cons_self s rest)
          ⟨sub, (resolve_suggestion_eq_some db cc s sub).mp hr, hcc⟩
      dsimp only
      rw [if_neg hc, ih _ (fun s2 h2 => h s2 (List.mem_cons_of_mem _ h2))]
      simp [List.filterMap_cons, hr]

/-- A non-`exact` reconciliation is the candidate list accumulated from the
whole suggestion list. -/
theorem reconcile_ne_exact_eq (db : List Subdivision) (orig : Address)
    (cc : String) (resp : UPSResponse)
    (h : reconcile db orig cc resp ≠ .exact) :
    reconcile db orig cc resp =
      .candidates (resp.suggestions.filterMap
        (fun s => (resolve_suggestion db cc s).map (make_candidate orig s.city))) := by
  unfold reconcile at h ⊢
  by_cases hcond : resp.valid = true ∧ resp.suggestions = []
  · rw [if_pos hcond] at h
    exact absurd rfl h
  · rw [if_neg hcond] at h ⊢
    refine reconcile_loop_no_confirm db orig cc resp.suggestions [] ?_
    intro s hs hc
    exact h ((reconcile_loop_exact_iff db orig cc resp.suggestions []).mpr ⟨s, hs, hc⟩)

/-! Claim theorems. -/

/-- C1: reconciliation returns the `Exact` verdict (the source's `return
True`) if and only if either the response reports valid with an empty
suggestion list, or some suggestion whose `(country_code, state)` pair
resolves to exactly one subdivision record has a city equal to the
original's city case-insensitively and a resolved subdivision equal to the
original's subdivision; any such suggestion short-circuits the loop, so the
verdict is `Exact` whichever position it occupies. -/
theorem reconcile_exact_iff (db : List Subdivision) (orig : Address)
    (cc : String) (resp : UPSResponse) :
    reconcile db orig cc resp = .exact ↔
      (resp.valid = true ∧ resp.suggestions = []) ∨
      ∃ s ∈ resp.suggestions, ∃ sub,
        subdivision_search db (cc ++ "-" ++ s.state) = [sub] ∧
        str_upper orig.city = str_upper s.city ∧ orig.subdivision = some sub := by
  unfold reconcile
  by_cases hcond : resp.valid = true ∧ resp.suggestions = []
  · rw [if_pos hcond]
    simp [hcond]
  · rw [if_neg hcond, reconcile_loop_exact_iff]
    unfold confirms_original
    exact (or_iff_right hcond).symm

/-- C2: when reconciliation does not return `Exact`, it returns the
`Candidates` verdict built by iterating every suggestion, contributing one
candidate per suggestion that resolves to exactly one subdivision and
nothing (silently, with no error) for the others; the list may be empty,
and an empty `Candidates` is a value distinct from `Exact`. -/
theorem reconcile_silent_skip (db : List Subdivision) (orig : Address)
    (cc : String) (resp : UPSResponse)
    (h : reconcile db orig cc resp ≠ .exact) :
    reconcile db orig cc resp =
      .candidates (resp.suggestions.filterMap
        (fun s => (resolve_suggestion db cc s).map (make_candidate orig s.city))) ∧
    (∀ s ∈ resp.suggestions, resolve_suggestion db cc s = none →
      (resolve_suggestion db cc s).map (make_candidate orig s.city) = none) ∧
    Verdict.candidates [] ≠ Verdict.exact :=
  ⟨reconcile_ne_exact_eq db orig cc resp h,
   fun _ _ hn => by rw [hn]; rfl,
   fun hc => Verdict.noConfusion hc⟩

/-- Witness for C2 at a concrete input: one unresolvable suggestion, empty
record store. -/
theorem reconcile_silent_skip_witness :
    reconcile [] exAddress "US" exRespZZ =
      .candidates (exRespZZ.suggestions.filterMap
        (fun s => (resolve_suggestion [] "US" s).map (make_candidate exAddress s.city))) ∧
    (∀ s ∈ exRespZZ.suggestions, resolve_suggestion [] "US" s = none →
      (resolve_suggestion [] "US" s).map (make_candidate exAddress s.city) = none) ∧
    Verdict.candidates [] ≠ Verdict.exact :=
  reconcile_silent_skip [] exAddress "US" exRespZZ (by decide)

/-- C3: whenever reconciliation returns `Candidates l`, the list `l` has
one entry per resolvable suggestion, in the insertion order of the carrier
response and without deduplication, and each entry carries exactly the
original's name, street, streetbis, country and zip together with the
suggestion's city and the resolved subdivision. -/
theorem reconcile_candidate_fields (db : List Subdivision) (orig : Address)
    (cc : String) (resp : UPSResponse) (l : List Candidate)
    (h : reconcile db orig cc resp = .candidates l) :
    l = resp.suggestions.filterMap (fun s =>
      (resolve_suggestion db cc s).map (fun sub =>
        { name := orig.name, street := orig.street, streetbis := orig.streetbis,
          country := orig.country, zip := orig.zip, city := s.city,
          subdivision := sub : Candidate })) := by
  have hne : reconcile db orig cc resp ≠ .exact := by
    rw [h]
    exact fun hc => Verdict.noConfusion hc
  have heq := reconcile_ne_exact_eq db orig cc resp hne
  rw [h] at heq
  exact Verdict.candidates.inj heq

/-- Witness for C3 at a concrete input: one resolvable, non-matching
suggestion produces the single Houston candidate. -/
theorem reconcile_candidate_fields_witness :
    [exCandidateHouston] = exRespHouston.suggestions.filterMap (fun s =>
      (resolve_suggestion [exSubTX] "US" s).map (fun sub =>
        { name := exAddress.name, street := exAddress.street,
          streetbis := exAddress.streetbis, country := exAddress.country,
          zip := exAddress.zip, city := s.city,
          subdivision := sub : Candidate })) :=
  reconcile_candidate_fields [exSubTX] exAddress "US" exRespHouston
    [exCandidateHouston] (by decide)

/-- C4: the required-field check of `_get_ups_address_xml`: an empty
street, city or country always yields the combined-field error regardless
of the other fields; otherwise a US/CA country with no subdivision yields
the state-required error (before the ZIP check); otherwise a US/CA/PR
country with no zip yields the ZIP-required error; any other country never
fails on a missing zip or subdivision. -/
theorem validate_required_checks :
    (∀ a : Address, (a.street = "" ∨ a.city = "" ∨ a.country = none) →
      _get_ups_address_xml a = .error "Street, City and Country are required.") ∧
    (∀ (a : Address) (c : Country), a.country = some c → a.street ≠ "" → a.city ≠ "" →
      (c.code = "US" ∨ c.code = "CA") → a.subdivision = none →
      _get_ups_address_xml a = .error ("State is required for " ++ c.code)) ∧
    (∀ (a : Address) (c : Country), a.country = some c → a.street ≠ "" → a.city ≠ "" →
      ¬ ((c.code = "US" ∨ c.code = "CA") ∧ a.subdivision = none) →
      (c.code = "US" ∨ c.code = "CA" ∨ c.code = "PR") → a.zip = "" →
      _get_ups_address_xml a = .error ("ZIP is required for " ++ c.code)) ∧
    (∀ (a : Address) (c : Country), a.country = some c → a.street ≠ "" → a.city ≠ "" →
      c.code ≠ "US" → c.code ≠ "CA" → c.code ≠ "PR" →
      (_get_ups_address_xml a).isOk = true) := by
  refine ⟨?_, ?_, ?_, ?_⟩
  · intro a h
    unfold _get_ups_address_xml
    rcases hc : a.country with _ | c
    · rfl
    · have h1 : a.street = "" ∨ a.city = "" := by
        rcases h with h | h | h
        · exact Or.inl h
        · exact Or.inr h
        · rw [h] at hc; cases hc
      dsimp only
      rw [if_pos h1]
  · intro a c hc hs hcity hcode hsub
    unfold _get_ups_address_xml
    rw [hc]
    dsimp only
    rw [if_neg (by rintro (h | h) <;> [exact hs h; exact hcity h]),
      if_pos ⟨hcode, hsub⟩]
  · intro a c hc hs hcity hnosub hcode hzip
    unfold _get_ups_address_xml
    rw [hc]
    dsimp only
    rw [if_neg (by rintro (h | h) <;> [exact hs h; exact hcity h]),
      if_neg hnosub, if_pos ⟨hcode, hzip⟩]
  · intro a c hc hs hcity hus hca hpr
    unfold _get_ups_address_xml
    rw [hc]
    dsimp only
    rw [if_neg (by rintro (h | h) <;> [exact hs h; exact hcity h]),
      if_neg (by rintro ⟨h | h, -⟩ <;> [exact hus h; exact hca h]),
      if_neg (by rintro ⟨h | h | h, -⟩ <;> [exact hus h; exact hca h; exact hpr h])]
    rfl

/-- Witness for C4 at concrete inputs: an address with no street, a US
address with no subdivision, a US address with no zip, and a French address
with neither zip nor subdivision. -/
theorem validate_required_checks_witness :
    _get_ups_address_xml exNoStreet = .error "Street, City and Country are required." ∧
    _get_ups_address_xml exNoSubUS = .error ("State is required for " ++ (Country.mk "US").code) ∧
    _get_ups_address_xml exNoZipUS = .error ("ZIP is required for " ++ (Country.mk "US").code) ∧
    (_get_ups_address_xml exFR).isOk = true :=
  ⟨validate_required_checks.1 exNoStreet (by decide),
   validate_required_checks.2.1 exNoSubUS ⟨"US"⟩ (by decide) (by decide) (by decide)
     (by decide) (by decide),
   validate_required_checks.2.2.1 exNoZipUS ⟨"US"⟩ (by decide) (by decide) (by decide)
     (by decide) (by decide) (by decide),
   validate_required_checks.2.2.2 exFR ⟨"FR"⟩ (by decide) (by decide) (by decide)
     (by decide) (by decide) (by decide)⟩

/-- C5 as stated is false: the desktop-XML mapper emits `Address1`
untruncated, so a valid 40-character street appears with all 40 characters
in the worldship payload. -/
theorem worldship_untruncated_counterexample :
    (to_worldship_address exLongAddress (some 1) exCompanyLookup).toOption.bind
      (List.lookup "Address1") = some (some exStreet40) ∧
    (_get_ups_address_xml exLongAddress).isOk = true ∧
    exStreet40.length = 40 := by
  decide

/-- C5 amended: truncation is a property of the REST-style payload only:
there `AddressLine1` is the street truncated to 35 characters and `City`
the city truncated to 30 (so a 40-character street yields exactly 35 and a
50-character city exactly 30, via `min`); the desktop-XML payload carries
the street and city untruncated. -/
theorem truncation_amended :
    (∀ (a : Address) (p : Payload), _get_ups_address_xml a = .ok p →
      p.lookup "AddressLine1" = some (str_take a.street 35) ∧
      p.lookup "City" = some (str_take a.city 30) ∧
      (str_take a.street 35).length = min 35 a.street.length ∧
      (str_take a.city 30).length = min 30 a.city.length) ∧
    (∀ (a : Address) (ctx : Option Nat) (cp : Nat → Party) (p : WorldshipPayload),
      to_worldship_address a ctx cp = .ok p →
      p.lookup "Address1" = some (some a.street) ∧
      p.lookup "CityOrTown" = some (some a.city)) := by
  constructor
  · intro a p h
    obtain ⟨c, -, -, -, hp⟩ := get_ups_address_xml_ok a p h
    subst hp
    exact ⟨rfl, rfl, str_take_length a.street 35, str_take_length a.city 30⟩
  · intro a ctx cp p h
    unfold to_worldship_address at h
    rcases ctx with _ | cid
    · cases h
    · have hp := Except.ok.inj h
      subst hp
      constructor
      · show some (some (strOr a.street "")) = some (some a.street)
        rw [strOr_empty]
      · show some (some (strOr a.city "")) = some (some a.city)
        rw [strOr_empty]

/-- Witness for the amended C5 at the over-long concrete address, in both
payload formats. -/
theorem truncation_amended_witness :
    (List.lookup "AddressLine1"
        [("AddressLine1", "12345678901234567890123456789012345"),
         ("City", "123456789012345678901234567890"),
         ("CountryCode", "US"), ("StateProvinceCode", "TX"),
         ("PostalCode", "78701")] =
      some (str_take exLongAddress.street 35) ∧
     List.lookup "City"
        [("AddressLine1", "12345678901234567890123456789012345"),
         ("City", "123456789012345678901234567890"),
         ("CountryCode", "US"), ("StateProvinceCode", "TX"),
         ("PostalCode", "78701")] =
      some (str_take exLongAddress.city 30) ∧
     (str_take exLongAddress.street 35).length = min 35 exLongAddress.street.length ∧
     (str_take exLongAddress.city 30).length = min 30 exLongAddress.city.length) ∧
    (List.lookup "Address1"
        [("CompanyOrName", some "Acme Corp"), ("Attention", some "John"),
         ("Address1", some exStreet40), ("Address2", some ""),
         ("CountryTerritory", some "US"), ("PostalCode", some "78701"),
         ("CityOrTown", some exCity50), ("StateProvinceCounty", some "TX"),
         ("Telephone", some "5551234567")] =
      some (some exLongAddress.street) ∧
     List.lookup "CityOrTown"
        [("CompanyOrName", some "Acme Corp"), ("Attention", some "John"),
         ("Address1", some exStreet40), ("Address2", some ""),
         ("CountryTerritory", some "US"), ("PostalCode", some "78701"),
         ("CityOrTown", some exCity50), ("StateProvinceCounty", some "TX"),
         ("Telephone", some "5551234567")] =
      some (some exLongAddress.city)) :=
  ⟨truncation_amended.1 exLongAddress
      [("AddressLine1", "12345678901234567890123456789012345"),
       ("City", "123456789012345678901234567890"),
       ("CountryCode", "US"), ("StateProvinceCode", "TX"),
       ("PostalCode", "78701")] (by rfl),
   truncation_amended.2 exLongAddress (some 1) exCompanyLookup
      [("CompanyOrName", some "Acme Corp"), ("Attention", some "John"),
       ("Address1", some exStreet40), ("Address2", some ""),
       ("CountryTerritory", some "US"), ("PostalCode", some "78701"),
       ("CityOrTown", some exCity50), ("StateProvinceCounty", some "TX"),
       ("Telephone", some "5551234567")] (by rfl)⟩

/-- Payload shape of a successful `to_ups_from_address`. -/
theorem to_ups_from_address_ok (a : Address) (ctx : Option Nat)
    (cp : Nat → Party) (p : Payload) (h : to_ups_from_address a ctx cp = .ok p) :
    ∃ cid addr, ctx = some cid ∧ a.party.phone ≠ "" ∧
      _get_ups_address_xml a = .ok addr ∧
      p = addr ++ ([("CompanyName", (cp cid).name),
            ("AttentionName", strOr a.name a.party.name),
            ("TaxIdentificationNumber", first_identifier_code (cp cid).identifiers),
            ("PhoneNumber", digits_only a.party.phone)]
        ++ (if a.party.fax ≠ "" then [("FaxNumber", a.party.fax)] else [])
        ++ (if a.party.email ≠ "" then [("EMailAddress", a.party.email)] else [])) := by
  unfold to_ups_from_address at h
  by_cases hph : a.party.phone = ""
  · rw [if_pos hph] at h
    cases h
  · rw [if_neg hph] at h
    rcases ctx with _ | cid
    · cases h
    · dsimp only at h
      rcases haddr : _get_ups_address_xml a with e | addr <;> rw [haddr] at h <;>
        dsimp only at h
      · cases h
      · exact ⟨cid, addr, rfl, hph, rfl, (Except.ok.inj h).symm⟩

/-- Payload shape of a successful `to_ups_to_address`. -/
theorem to_ups_to_address_ok (a : Address) (p : Payload)
    (h : to_ups_to_address a = .ok p) :
    ∃ addr, _get_ups_address_xml a = .ok addr ∧
      p = addr ++ ([("CompanyName", strOr a.name a.party.name),
            ("TaxIdentificationNumber", to_address_tax_id a.party),
            ("AttentionName", strOr a.name a.party.name)]
        ++ (if a.party.phone ≠ "" then [("PhoneNumber", digits_only a.party.phone)] else [])
        ++ (if a.party.fax ≠ "" then [("FaxNumber", a.party.fax)] else [])
        ++ (if a.party.email ≠ "" then [("EMailAddress", a.party.email)] else [])) := by
  unfold to_ups_to_address at h
  dsimp only at h
  rcases haddr : _get_ups_address_xml a with e | addr <;> rw [haddr] at h <;>
    dsimp only at h
  · cases h
  · exact ⟨addr, rfl, (Except.ok.inj h).symm⟩

/-- Payload shape of a successful `to_ups_shipper`. -/
theorem to_ups_shipper_ok (a : Address) (sn : String) (ctx : Option Nat)
    (cp : Nat → Party) (p : Payload) (h : to_ups_shipper a sn ctx cp = .ok p) :
    ∃ cid addr, ctx = some cid ∧ a.party.phone ≠ "" ∧
      _get_ups_address_xml a = .ok addr ∧
      p = addr ++ ([("CompanyName", (cp cid).name),
            ("TaxIdentificationNumber", first_identifier_code (cp cid).identifiers),
            ("Name", strOr a.name a.party.name),
            ("AttentionName", strOr a.name a.party.name),
            ("PhoneNumber", digits_only a.party.phone),
            ("ShipperNumber", sn)]
        ++ (if a.party.fax ≠ "" then [("FaxNumber", a.party.fax)] else [])
        ++ (if a.party.email ≠ "" then [("EMailAddress", a.party.email)] else [])) := by
  unfold to_ups_shipper at h
  by_cases hph : a.party.phone = ""
  · rw [if_pos hph] at h
    cases h
  · rw [if_neg hph] at h
    rcases ctx with _ | cid
    · cases h
    · dsimp only at h
      rcases haddr : _get_ups_address_xml a with e | addr <;> rw [haddr] at h <;>
        dsimp only at h
      · cases h
      · exact ⟨cid, addr, rfl, hph, rfl, (Except.ok.inj h).symm⟩

/-- Payload shape of a successful `to_worldship_address`. -/
theorem to_worldship_address_ok (a : Address) (ctx : Option Nat)
    (cp : Nat → Party) (p : WorldshipPayload)
    (h : to_worldship_address a ctx cp = .ok p) :
    ∃ cid, ctx = some cid ∧
      p = [("CompanyOrName", some (cp cid).name),
           ("Attention", some (strOr a.name a.party.name)),
           ("Address1", some (strOr a.street "")),
           ("Address2", some (strOr a.streetbis "")),
           ("CountryTerritory", a.country.map (fun c => c.code)),
           ("PostalCode", some (strOr a.zip "")),
           ("CityOrTown", some (strOr a.city "")),
           ("StateProvinceCounty", a.subdivision.map (fun s => str_drop s.code 3)),
           ("Telephone", some (digits_only a.party.phone))] := by
  unfold to_worldship_address at h
  rcases ctx with _ | cid
  · cases h
  · exact ⟨cid, rfl, (Except.ok.inj h).symm⟩

/-- The `FaxNumber` key misses from a vals block whose fax field is empty. -/
theorem lookup_fax_none_of_empty (fixed : Payload) (fax email : String)
    (hfix : fixed.lookup "FaxNumber" = none) (hfax : fax = "") :
    ((fixed ++ (if fax ≠ "" then [("FaxNumber", fax)] else []))
      ++ (if email ≠ "" then [("EMailAddress", email)] else [])).lookup
        "FaxNumber" = none := by
  have h1 : (fixed ++ (if fax ≠ "" then [("FaxNumber", fax)] else [])).lookup
      "FaxNumber" = none := by
    rw [lookup_append_right _ _ _ hfix, hfax, if_neg (by simp)]
    rfl
  rw [lookup_append_right _ _ _ h1]
  split <;> rfl

/-- C6 as stated is false: for an address with no subdivision (and an empty
fax), the desktop-XML payload's `StateProvinceCounty` key carries the null
value `none` (Python `None`), not the empty string. -/
theorem worldship_state_none_counterexample :
    (to_worldship_address exNoSubUS (some 1) exCompanyLookup).toOption.bind
      (List.lookup "StateProvinceCounty") = some none ∧
    exNoSubUS.party.fax = "" ∧
    some (none : Option String) ≠ some (some "") := by
  decide

/-- C6 amended: when the party's fax is empty every REST-style role payload
omits the `FaxNumber` key entirely; the desktop-XML payload always carries
its nine positional keys (it has no fax key at all), with empty string for
an absent street line 2, postal code or city, but with the null value
`none` — not the empty string — for an absent country or subdivision. -/
theorem fax_omitted_and_worldship_fields :
    (∀ (a : Address) (ctx : Option Nat) (cp : Nat → Party) (p : Payload),
      a.party.fax = "" → to_ups_from_address a ctx cp = .ok p →
      p.lookup "FaxNumber" = none) ∧
    (∀ (a : Address) (p : Payload),
      a.party.fax = "" → to_ups_to_address a = .ok p →
      p.lookup "FaxNumber" = none) ∧
    (∀ (a : Address) (sn : String) (ctx : Option Nat) (cp : Nat → Party) (p : Payload),
      a.party.fax = "" → to_ups_shipper a sn ctx cp = .ok p →
      p.lookup "FaxNumber" = none) ∧
    (∀ (a : Address) (ctx : Option Nat) (cp : Nat → Party) (p : WorldshipPayload),
      to_worldship_address a ctx cp = .ok p →
      p.map Prod.fst = ["CompanyOrName", "Attention", "Address1", "Address2",
        "CountryTerritory", "PostalCode", "CityOrTown", "StateProvinceCounty",
        "Telephone"] ∧
      p.lookup "Address2" = some (some a.streetbis) ∧
      p.lookup "PostalCode" = some (some a.zip) ∧
      p.lookup "CityOrTown" = some (some a.city) ∧
      p.lookup "CountryTerritory" = some (a.country.map (fun c => c.code)) ∧
      p.lookup "StateProvinceCounty" =
        some (a.subdivision.map (fun s => str_drop s.code 3)) ∧
      p.lookup "FaxNumber" = none) := by
  refine ⟨?_, ?_, ?_, ?_⟩
  · intro a ctx cp p hfax h
    obtain ⟨cid, addr, -, -, haddr, hp⟩ := to_ups_from_address_ok a ctx cp p h
    subst hp
    rw [lookup_append_right _ _ _
      (get_ups_address_xml_lookup_none a addr haddr "FaxNumber" (by decide))]
    exact lookup_fax_none_of_empty _ _ _ rfl hfax
  · intro a p hfax h
    obtain ⟨addr, haddr, hp⟩ := to_ups_to_address_ok a p h
    subst hp
    rw [lookup_append_right _ _ _
      (get_ups_address_xml_lookup_none a addr haddr "FaxNumber" (by decide))]
    refine lookup_fax_none_of_empty _ _ _ ?_ hfax
    have h3 : List.lookup "FaxNumber"
        [("CompanyName", strOr a.name a.party.name),
         ("TaxIdentificationNumber", to_address_tax_id a.party),
         ("AttentionName", strOr a.name a.party.name)] = none := rfl
    rw [lookup_append_right _ _ _ h3]
    split <;> rfl
  · intro a sn ctx cp p hfax h
    obtain ⟨cid, addr, -, -, haddr, hp⟩ := to_ups_shipper_ok a sn ctx cp p h
    subst hp
    rw [lookup_append_right _ _ _
      (get_ups_address_xml_lookup_none a addr haddr "FaxNumber" (by decide))]
    exact lookup_fax_none_of_empty _ _ _ rfl hfax
  · intro a ctx cp p h
    obtain ⟨cid, -, hp⟩ := to_worldship_address_ok a ctx cp p h
    subst hp
    refine ⟨rfl, ?_, ?_, ?_, rfl, rfl, rfl⟩
    · show some (some (strOr a.streetbis "")) = some (some a.streetbis)
      rw [strOr_empty]
    · show some (some (strOr a.zip "")) = some (some a.zip)
      rw [strOr_empty]
    · show some (some (strOr a.city "")) = some (some a.city)
      rw [strOr_empty]

/-- Witness for the amended C6: the from-address payload of the concrete
US address has no fax key, and the worldship payload of the
subdivision-less address carries all nine keys with a null state value. -/
theorem fax_omitted_and_worldship_fields_witness :
    exFromPayload.lookup "FaxNumber" = none ∧
    (exWsNoSubPayload.map Prod.fst = ["CompanyOrName", "Attention", "Address1",
        "Address2", "CountryTerritory", "PostalCode", "CityOrTown",
        "StateProvinceCounty", "Telephone"] ∧
      exWsNoSubPayload.lookup "Address2" = some (some exNoSubUS.streetbis) ∧
      exWsNoSubPayload.lookup "PostalCode" = some (some exNoSubUS.zip) ∧
      exWsNoSubPayload.lookup "CityOrTown" = some (some exNoSubUS.city) ∧
      exWsNoSubPayload.lookup "CountryTerritory" =
        some (exNoSubUS.country.map (fun c => c.code)) ∧
      exWsNoSubPayload.lookup "StateProvinceCounty" =
        some (exNoSubUS.subdivision.map (fun s => str_drop s.code 3)) ∧
      exWsNoSubPayload.lookup "FaxNumber" = none) :=
  ⟨fax_omitted_and_worldship_fields.1 exAddress (some 1) exCompanyLookup
      exFromPayload (by rfl) (by rfl),
   fax_omitted_and_worldship_fields.2.2.2 exNoSubUS (some 1) exCompanyLookup
      exWsNoSubPayload (by rfl)⟩

/-- C7: for the from-address and shipper roles an empty party phone fails
with the phone-missing error for that role, regardless of the context and
the company lookup (the phone check precedes the company check), and with a
non-empty phone a missing company context fails with the company-missing
error; in both cases the result is an error, never a payload. -/
theorem phone_company_required :
    (∀ (a : Address) (ctx : Option Nat) (cp : Nat → Party) (sn : String),
      a.party.phone = "" →
      to_ups_from_address a ctx cp =
        .error (ups_field_missing "Phone no." "\"from address\"") ∧
      to_ups_shipper a sn ctx cp =
        .error (ups_field_missing "Phone no." "\"Shipper Address\"")) ∧
    (∀ (a : Address) (cp : Nat → Party) (sn : String),
      a.party.phone ≠ "" →
      to_ups_from_address a none cp =
        .error (ups_field_missing "Company" "context") ∧
      to_ups_shipper a sn none cp =
        .error (ups_field_missing "Company" "context")) := by
  constructor
  · intro a ctx cp sn hph
    constructor
    · unfold to_ups_from_address
      rw [if_pos hph]
    · unfold to_ups_shipper
      rw [if_pos hph]
  · intro a cp sn hph
    constructor
    · unfold to_ups_from_address
      rw [if_neg hph]
    · unfold to_ups_shipper
      rw [if_neg hph]

/-- Witness for C7 at concrete inputs: the phone-less address errors in
both roles even with a company in context, and the phone-bearing address
errors on a missing company context. -/
theorem phone_company_required_witness :
    (to_ups_from_address exNoPhone (some 1) exCompanyLookup =
        .error (ups_field_missing "Phone no." "\"from address\"") ∧
     to_ups_shipper exNoPhone "SH123" (some 1) exCompanyLookup =
        .error (ups_field_missing "Phone no." "\"Shipper Address\"")) ∧
    (to_ups_from_address exAddress none exCompanyLookup =
        .error (ups_field_missing "Company" "context") ∧
     to_ups_shipper exAddress "SH123" none exCompanyLookup =
        .error (ups_field_missing "Company" "context")) :=
  ⟨phone_company_required.1 exNoPhone (some 1) exCompanyLookup "SH123" (by rfl),
   phone_company_required.2 exAddress exCompanyLookup "SH123" (by decide)⟩

/-- C8 as stated is false: for the from-address role the company party's
non-empty tax exemption number is ignored when it has no identifiers — the
emitted tax identification number is the empty string, not the fallback. -/
theorem tax_id_no_fallback_counterexample :
    (to_ups_from_address exAddress (some 1) exCompanyLookupTaxEx).toOption.bind
      (List.lookup "TaxIdentificationNumber") = some "" ∧
    exPartyTaxEx.identifiers = [] ∧
    exPartyTaxEx.tax_exemption_number = some "E-123" ∧
    "E-123" ≠ "" := by
  decide

/-- C8 amended: only the ship-to role resolves the tax identification
number as first identifier code, else non-empty tax exemption number, else
empty; the from-address and shipper roles use the company party's first
identifier code or the empty string, with no tax-exemption fallback. -/
theorem tax_id_resolution_amended :
    (∀ (a : Address) (p : Payload), to_ups_to_address a = .ok p →
      p.lookup "TaxIdentificationNumber" = some (to_address_tax_id a.party)) ∧
    (∀ (pty : Party) (i : Identifier) (rest : List Identifier),
      pty.identifiers = i :: rest → to_address_tax_id pty = i.code) ∧
    (∀ (pty : Party) (t : String), pty.identifiers = [] →
      pty.tax_exemption_number = some t → t ≠ "" → to_address_tax_id pty = t) ∧
    (∀ pty : Party, pty.identifiers = [] →
      (pty.tax_exemption_number = none ∨ pty.tax_exemption_number = some "") →
      to_address_tax_id pty = "") ∧
    (∀ (a : Address) (cid : Nat) (cp : Nat → Party) (p : Payload),
      to_ups_from_address a (some cid) cp = .ok p →
      p.lookup "TaxIdentificationNumber" =
        some (first_identifier_code (cp cid).identifiers)) ∧
    (∀ (a : Address) (sn : String) (cid : Nat) (cp : Nat → Party) (p : Payload),
      to_ups_shipper a sn (some cid) cp = .ok p →
      p.lookup "TaxIdentificationNumber" =
        some (first_identifier_code (cp cid).identifiers)) ∧
    (∀ (i : Identifier) (rest : List Identifier),
      first_identifier_code (i :: rest) = i.code) ∧
    first_identifier_code [] = "" := by
  refine ⟨?_, ?_, ?_, ?_, ?_, ?_, fun i rest => rfl, rfl⟩
  · intro a p h
    obtain ⟨addr, haddr, hp⟩ := to_ups_to_address_ok a p h
    subst hp
    rw [lookup_append_right _ _ _
      (get_ups_address_xml_lookup_none a addr haddr "TaxIdentificationNumber"
        (by decide))]
    exact lookup_append_left _ _ _ _ (lookup_append_left _ _ _ _
      (lookup_append_left _ _ _ _ rfl))
  · intro pty i rest h
    unfold to_address_tax_id
    rw [h]
  · intro pty t h1 h2 hne
    unfold to_address_tax_id
    rw [h1, h2]
    dsimp only
    rw [if_neg hne]
  · intro pty h1 h2
    unfold to_address_tax_id
    rw [h1]
    rcases h2 with h2 | h2 <;> rw [h2]
    rfl
  · intro a cid cp p h
    obtain ⟨cid2, addr, hctx, -, haddr, hp⟩ := to_ups_from_address_ok a (some cid) cp p h
    obtain rfl : cid = cid2 := Option.some.inj hctx
    subst hp
    rw [lookup_append_right _ _ _
      (get_ups_address_xml_lookup_none a addr haddr "TaxIdentificationNumber"
        (by decide))]
    exact lookup_append_left _ _ _ _ (lookup_append_left _ _ _ _ rfl)
  · intro a sn cid cp p h
    obtain ⟨cid2, addr, hctx, -, haddr, hp⟩ := to_ups_shipper_ok a sn (some cid) cp p h
    obtain rfl : cid = cid2 := Option.some.inj hctx
    subst hp
    rw [lookup_append_right _ _ _
      (get_ups_address_xml_lookup_none a addr haddr "TaxIdentificationNumber"
        (by decide))]
    exact lookup_append_left _ _ _ _ (lookup_append_left _ _ _ _ rfl)

/-- Witness for the amended C8 at concrete inputs: the ship-to payload of
the US address, the tax-exempt party's fallback, and the from-address
payload of the US address. -/
theorem tax_id_resolution_amended_witness :
    exToPayload.lookup "TaxIdentificationNumber" =
      some (to_address_tax_id exAddress.party) ∧
    to_address_tax_id exPartyTaxEx = "E-123" ∧
    exFromPayload.lookup "TaxIdentificationNumber" =
      some (first_identifier_code (exCompanyLookup 1).identifiers) :=
  ⟨tax_id_resolution_amended.1 exAddress exToPayload (by rfl),
   tax_id_resolution_amended.2.2.1 exPartyTaxEx "E-123" (by rfl) (by rfl) (by decide),
   tax_id_resolution_amended.2.2.2.2.1 exAddress 1 exCompanyLookup exFromPayload
     (by rfl)⟩

/-- C9: both payload formats derive the state field by dropping the first
three characters of the subdivision's composite code (`"US-TX"` maps to
`"TX"`), and the REST payload carries a `StateProvinceCode` key exactly
when a subdivision exists. -/
theorem state_province_code_mapping :
    (∀ (a : Address) (sub : Subdivision) (p : Payload), a.subdivision = some sub →
      _get_ups_address_xml a = .ok p →
      p.lookup "StateProvinceCode" = some (str_drop sub.code 3)) ∧
    (∀ (a : Address) (p : Payload), a.subdivision = none →
      _get_ups_address_xml a = .ok p →
      p.lookup "StateProvinceCode" = none) ∧
    (∀ (a : Address) (ctx : Option Nat) (cp : Nat → Party) (p : WorldshipPayload)
      (sub : Subdivision), a.subdivision = some sub →
      to_worldship_address a ctx cp = .ok p →
      p.lookup "StateProvinceCounty" = some (some (str_drop sub.code 3))) ∧
    str_drop "US-TX" 3 = "TX" := by
  refine ⟨?_, ?_, ?_, by decide⟩
  · intro a sub p hsub h
    obtain ⟨c, -, -, -, hp⟩ := get_ups_address_xml_ok a p h
    subst hp
    have h3 : List.lookup "StateProvinceCode"
        [("AddressLine1", str_take a.street 35), ("City", str_take a.city 30),
         ("CountryCode", c.code)] = none := rfl
    have hb : (if a.streetbis ≠ "" then [("AddressLine2", str_take a.streetbis 35)]
        else []).lookup "StateProvinceCode" = none := by
      split <;> rfl
    apply lookup_append_left
    rw [lookup_append_right _ _ _ ((lookup_append_right _ _ _ h3).trans hb), hsub]
    rfl
  · intro a p hsub h
    obtain ⟨c, -, -, -, hp⟩ := get_ups_address_xml_ok a p h
    subst hp
    have h3 : List.lookup "StateProvinceCode"
        [("AddressLine1", str_take a.street 35), ("City", str_take a.city 30),
         ("CountryCode", c.code)] = none := rfl
    have hb : (if a.streetbis ≠ "" then [("AddressLine2", str_take a.streetbis 35)]
        else []).lookup "StateProvinceCode" = none := by
      split <;> rfl
    have hs : (match a.subdivision with
        | some s => [("StateProvinceCode", str_drop s.code 3)]
        | none => ([] : Payload)).lookup "StateProvinceCode" = none := by
      rw [hsub]
      rfl
    have hz : (if a.zip ≠ "" then [("PostalCode", a.zip)] else []).lookup
        "StateProvinceCode" = none := by
      split <;> rfl
    rw [lookup_append_right _ _ _
      ((lookup_append_right _ _ _ ((lookup_append_right _ _ _ h3).trans hb)).trans hs)]
    exact hz
  · intro a ctx cp p sub hsub h
    obtain ⟨cid, -, hp⟩ := to_worldship_address_ok a ctx cp p h
    subst hp
    show some (a.subdivision.map (fun s => str_drop s.code 3)) =
      some (some (str_drop sub.code 3))
    rw [hsub]
    rfl

/-- Witness for C9 at concrete inputs: the US payloads carry `"TX"` derived
from `"US-TX"`, and the French payload has no state key. -/
theorem state_province_code_mapping_witness :
    exAddrPayload.lookup "StateProvinceCode" = some (str_drop exSubTX.code 3) ∧
    exFRPayload.lookup "StateProvinceCode" = none ∧
    exWsPayload.lookup "StateProvinceCounty" = some (some (str_drop exSubTX.code 3)) :=
  ⟨state_province_code_mapping.1 exAddress exSubTX exAddrPayload (by rfl) (by rfl),
   state_province_code_mapping.2.1 exFR exFRPayload (by rfl) (by rfl),
   state_province_code_mapping.2.2.1 exAddress (some 1) exCompanyLookup exWsPayload
     exSubTX (by rfl) (by rfl)⟩

/-- C10: the ship-to mapping never fails on an empty party phone — with an
empty phone it errors exactly when the address mapping errors, succeeds
with no `PhoneNumber` key otherwise — while a non-empty phone is emitted
with every non-digit stripped; by contrast the from-address and shipper
mappings never succeed on an empty phone. -/
theorem to_address_phone_optional :
    (∀ a : Address, a.party.phone = "" →
      (∀ e, _get_ups_address_xml a = .error e → to_ups_to_address a = .error e) ∧
      (∀ addr, _get_ups_address_xml a = .ok addr →
        ∃ p, to_ups_to_address a = .ok p ∧ p.lookup "PhoneNumber" = none)) ∧
    (∀ (a : Address) (p : Payload), a.party.phone ≠ "" → to_ups_to_address a = .ok p →
      p.lookup "PhoneNumber" = some (digits_only a.party.phone)) ∧
    (∀ (a : Address) (ctx : Option Nat) (cp : Nat → Party) (sn : String),
      a.party.phone = "" →
      (to_ups_from_address a ctx cp).isOk = false ∧
      (to_ups_shipper a sn ctx cp).isOk = false) := by
  refine ⟨?_, ?_, ?_⟩
  · intro a hph
    constructor
    · intro e he
      unfold to_ups_to_address
      dsimp only
      rw [he]
    · intro addr haddr
      unfold to_ups_to_address
      dsimp only
      rw [haddr]
      refine ⟨_, rfl, ?_⟩
      rw [lookup_append_right _ _ _
        (get_ups_address_xml_lookup_none a addr haddr "PhoneNumber" (by decide))]
      have h3 : List.lookup "PhoneNumber"
          [("CompanyName", strOr a.name a.party.name),
           ("TaxIdentificationNumber", to_address_tax_id a.party),
           ("AttentionName", strOr a.name a.party.name)] = none := rfl
      have hp2 : (if a.party.phone ≠ "" then [("PhoneNumber", digits_only a.party.phone)]
          else []).lookup "PhoneNumber" = none := by
        rw [hph, if_neg (by simp)]
        rfl
      have hfx : (if a.party.fax ≠ "" then [("FaxNumber", a.party.fax)] else []).lookup
          "PhoneNumber" = none := by
        split <;> rfl
      rw [lookup_append_right _ _ _
        ((lookup_append_right _ _ _ ((lookup_append_right _ _ _ h3).trans hp2)).trans hfx)]
      split <;> rfl
  · intro a p hph h
    obtain ⟨addr, haddr, hp⟩ := to_ups_to_address_ok a p h
    subst hp
    rw [lookup_append_right _ _ _
      (get_ups_address_xml_lookup_none a addr haddr "PhoneNumber" (by decide))]
    have h1 : (([("CompanyName", strOr a.name a.party.name),
          ("TaxIdentificationNumber", to_address_tax_id a.party),
          ("AttentionName", strOr a.name a.party.name)] : Payload)
        ++ (if a.party.phone ≠ "" then [("PhoneNumber", digits_only a.party.phone)]
            else [])).lookup "PhoneNumber" = some (digits_only a.party.phone) := by
      rw [lookup_append_right _ _ _ (by rfl : List.lookup "PhoneNumber"
          [("CompanyName", strOr a.name a.party.name),
           ("TaxIdentificationNumber", to_address_tax_id a.party),
           ("AttentionName", strOr a.name a.party.name)] = none), if_pos hph]
      rfl
    exact lookup_append_left _ _ _ _ (lookup_append_left _ _ _ _ h1)
  · intro a ctx cp sn hph
    constructor
    · unfold to_ups_from_address
      rw [if_pos hph]
      rfl
    · unfold to_ups_shipper
      rw [if_pos hph]
      rfl

/-- Witness for C10 at concrete inputs: the phone-less address maps to a
ship-to payload with no phone key, the phone-bearing address emits its
digits, and the other two roles reject the phone-less address. -/
theorem to_address_phone_optional_witness :
    (∃ p, to_ups_to_address exNoPhone = .ok p ∧ p.lookup "PhoneNumber" = none) ∧
    exToPayload.lookup "PhoneNumber" = some (digits_only exAddress.party.phone) ∧
    ((to_ups_from_address exNoPhone (some 1) exCompanyLookup).isOk = false ∧
     (to_ups_shipper exNoPhone "SH123" (some 1) exCompanyLookup).isOk = false) :=
  ⟨(to_address_phone_optional.1 exNoPhone (by rfl)).2 exAddrPayload (by rfl),
   to_address_phone_optional.2.1 exAddress exToPayload (by decide) (by rfl),
   to_address_phone_optional.2.2 exNoPhone (some 1) exCompanyLookup "SH123" (by rfl)⟩

end UpsShipping
